import Mathlib

/-!
Verification of the GradeCalc grade-aggregation core.

The definitions below are a shallow embedding of the Python sources
`src/course.py`, `src/grade_category.py` and the solver portion of
`src/main.py`.  Python floats are modelled as rationals, Python ints as
naturals (or integers where subtraction matters), Python lists as Lean
lists, and Python dicts as insertion-ordered association lists.
-/

/-- Python `float(x)` applied to a value that the model already holds as a
rational: the identity function.  Kept explicit so every `float(...)`
conversion in the source has a visible counterpart. -/
def pyFloat (x : ℚ) : ℚ := x

/-- Python `int(n)` applied to a value that the model already holds as a
natural number: the identity function. -/
def pyInt (n : ℕ) : ℕ := n

/-- `sum(l) / len(l)` on rationals; also the model of `np.mean`.  The sources
only apply it to non-empty lists (division by zero yields 0 in `ℚ`). -/
def listMean (l : List ℚ) : ℚ := l.sum / l.length

/-- Python `sorted` on a list of scores: ascending order. -/
def sortAsc (l : List ℚ) : List ℚ := List.insertionSort (fun a b : ℚ => a ≤ b) l

/-- Python `dict.get` / `in` on an insertion-ordered association list with
string keys (Python dict keys are unique, so first-match lookup agrees). -/
def dictGet {α : Type} : List (String × α) → String → Option α
  | [], _ => none
  | p :: rest, k => if p.1 = k then some p.2 else dictGet rest k

/-- `GradeCategory.__init__` state (grade_category.py, lines 3-9). -/
structure GradeCategory where
  name : String
  weight : ℚ
  total_assignments : ℕ
  drops : ℕ
  grades : List ℚ
deriving DecidableEq

/-- The dictionary produced by `GradeCategory.to_dict`. -/
structure GradeCategoryDict where
  name : String
  weight : ℚ
  total_assignments : ℕ
  drops : ℕ
  grades : List ℚ
deriving DecidableEq

/-- `GradeCategory.to_dict` (grade_category.py, lines 11-19). -/
def GradeCategory.to_dict (self : GradeCategory) : GradeCategoryDict :=
  { name := self.name
    weight := pyFloat self.weight
    total_assignments := pyInt self.total_assignments
    drops := pyInt self.drops
    grades := self.grades.map pyFloat }

/-- `GradeCategory.from_dict` (grade_category.py, lines 21-31). -/
def GradeCategory.from_dict (data : GradeCategoryDict) : GradeCategory :=
  { name := data.name
    weight := pyFloat data.weight
    total_assignments := pyInt data.total_assignments
    drops := pyInt data.drops
    grades := data.grades.map pyFloat }

/-- `Course.__init__` state (course.py, lines 4-11). -/
structure Course where
  name : String
  credit_hours : ℚ
  semester : String
  categories : List (String × GradeCategory)
  grade_boundaries : List (ℚ × ℚ)
  final_policy : String
deriving DecidableEq

/-- The dictionary produced by `Course.to_dict`. -/
structure CourseDict where
  name : String
  credit_hours : ℚ
  semester : String
  categories : List (String × GradeCategoryDict)
  grade_boundaries : List (ℚ × ℚ)
  final_policy : String
deriving DecidableEq

/-- `Course.to_dict` (course.py, lines 13-22). -/
def Course.to_dict (self : Course) : CourseDict :=
  { name := self.name
    credit_hours := pyFloat self.credit_hours
    semester := self.semester
    categories := self.categories.map (fun p => (p.1, p.2.to_dict))
    grade_boundaries := self.grade_boundaries.map (fun p => (pyFloat p.1, pyFloat p.2))
    final_policy := self.final_policy }

/-- `Course.from_dict` (course.py, lines 24-39). -/
def Course.from_dict (data : CourseDict) : Course :=
  { name := data.name
    credit_hours := pyFloat data.credit_hours
    semester := data.semester
    categories := data.categories.map (fun p => (p.1, GradeCategory.from_dict p.2))
    grade_boundaries := data.grade_boundaries.map (fun p => (pyFloat p.1, pyFloat p.2))
    final_policy := data.final_policy }

/-- `Course.calculate_category_average` (course.py, lines 41-67).
`sorted(category.grades)` allocates a fresh list, `grades[drops:]` slices it,
and the final-policy branch overwrites index 0 of that local list only. -/
def Course.calculate_category_average (self : Course) (category_name : String) : ℚ :=
  match dictGet self.categories category_name with
  | none => 0
  | some category =>
    if category.grades = [] then 0
    else
      let grades0 := (sortAsc category.grades).map pyFloat
      let grades1 := if category.drops > 0 then grades0.drop category.drops else grades0
      let grades2 :=
        match dictGet self.categories "Final" with
        | none => grades1
        | some finalCat =>
          if category_name = "Test" ∧ self.final_policy ≠ "No Replacement" then
            match finalCat.grades.map pyFloat with
            | [] => grades1
            | final_grade :: _ =>
              if self.final_policy = "Replace Lowest Test" then
                match grades1 with
                | [] => grades1
                | g :: gs => if final_grade > g then final_grade :: gs else g :: gs
              else if self.final_policy = "Average with Lowest Test" then
                match grades1 with
                | [] => grades1
                | g :: gs => ((g + final_grade) / 2) :: gs
              else grades1
          else grades1
      if grades2 = [] then 0 else listMean grades2

/-- One iteration of the `calculate_current_grade` loop (course.py, lines
74-79): the pair carries `(total_weighted_score, total_weight_used)`. -/
def currentGradeStep (self : Course) (acc : ℚ × ℚ) (p : String × GradeCategory) :
    ℚ × ℚ :=
  if p.2.grades ≠ [] then
    let average := self.calculate_category_average p.1
    let weight := p.2.weight / 100
    (acc.1 + average * weight, acc.2 + weight)
  else acc

/-- `Course.calculate_current_grade` (course.py, lines 69-83). -/
def Course.calculate_current_grade (self : Course) : ℚ :=
  let totals := self.categories.foldl (currentGradeStep self) (0, 0)
  if totals.2 > 0 then totals.1 / totals.2 else 0

/-- Descending lexicographic order on `(gpa, minimum)` pairs: the order in
which `sorted(..., reverse=True)` lists them in `get_gpa_points`. -/
def descPairLe (a b : ℚ × ℚ) : Prop := b.1 < a.1 ∨ (b.1 = a.1 ∧ b.2 ≤ a.2)

instance : DecidableRel descPairLe := fun a b =>
  inferInstanceAs (Decidable (b.1 < a.1 ∨ (b.1 = a.1 ∧ b.2 ≤ a.2)))

instance : IsTotal (ℚ × ℚ) descPairLe := by
  constructor
  intro a b
  rcases lt_trichotomy a.1 b.1 with h | h | h
  · exact Or.inr (Or.inl h)
  · rcases le_total a.2 b.2 with h2 | h2
    · exact Or.inr (Or.inr ⟨h, h2⟩)
    · exact Or.inl (Or.inr ⟨h.symm, h2⟩)
  · exact Or.inl (Or.inl h)

instance : IsTrans (ℚ × ℚ) descPairLe := by
  constructor
  intro a b c hab hbc
  rcases hab with h1 | ⟨h1, h1m⟩
  · rcases hbc with h2 | ⟨h2, _⟩
    · exact Or.inl (lt_trans h2 h1)
    · exact Or.inl (h2 ▸ h1)
  · rcases hbc with h2 | ⟨h2, h2m⟩
    · exact Or.inl (h1 ▸ h2)
    · exact Or.inr ⟨h2.trans h1, h2m.trans h1m⟩

/-- The scan inside `Course.get_gpa_points` (course.py, lines 91-97): walk the
descending-sorted `(gpa, minimum)` pairs and return the first `gpa` whose
`minimum` is at most the percentage; `0` when none matches. -/
def gpaScan : List (ℚ × ℚ) → ℚ → ℚ
  | [], _ => 0
  | (gpa, minimum) :: rest, p => if p ≥ minimum then gpa else gpaScan rest p

/-- `Course.get_gpa_points` (course.py, lines 85-97). -/
def Course.get_gpa_points (self : Course) (percentage : ℚ) : ℚ :=
  if self.grade_boundaries = [] then 0
  else
    gpaScan
      (List.insertionSort descPairLe
        (self.grade_boundaries.map (fun p => (pyFloat p.1, pyFloat p.2))))
      (pyFloat percentage)

/-- State-passing form of `calculate_category_average`: the result is paired
with the `Course` state after the call.  The method only ever reads `self`:
`sorted(category.grades)` allocates a fresh local list, the slice and the
`grades[0] = ...` assignments of the policy branches update that local list,
and no attribute of `self` or of a category is assigned, so every branch
returns the state it received. -/
def Course.calculate_category_averageS (self : Course) (category_name : String) :
    ℚ × Course :=
  match dictGet self.categories category_name with
  | none => (0, self)
  | some category =>
    if category.grades = [] then (0, self)
    else
      let grades0 := (sortAsc category.grades).map pyFloat
      let grades1 := if category.drops > 0 then grades0.drop category.drops else grades0
      let grades2 :=
        match dictGet self.categories "Final" with
        | none => grades1
        | some finalCat =>
          if category_name = "Test" ∧ self.final_policy ≠ "No Replacement" then
            match finalCat.grades.map pyFloat with
            | [] => grades1
            | final_grade :: _ =>
              if self.final_policy = "Replace Lowest Test" then
                match grades1 with
                | [] => grades1
                | g :: gs => if final_grade > g then final_grade :: gs else g :: gs
              else if self.final_policy = "Average with Lowest Test" then
                match grades1 with
                | [] => grades1
                | g :: gs => ((g + final_grade) / 2) :: gs
              else grades1
          else grades1
      (if grades2 = [] then 0 else listMean grades2, self)

/-- One iteration of the state-passing `calculate_current_grade` loop: the
course state is threaded through the `calculate_category_average` call. -/
def currentGradeStepS (acc : (ℚ × ℚ) × Course) (p : String × GradeCategory) :
    (ℚ × ℚ) × Course :=
  if p.2.grades ≠ [] then
    let r := acc.2.calculate_category_averageS p.1
    let average := r.1
    let weight := p.2.weight / 100
    ((acc.1.1 + average * weight, acc.1.2 + weight), r.2)
  else acc

/-- State-passing form of `calculate_current_grade`: the loop threads the
course state through each `calculate_category_average` call while the two
accumulators live in locals. -/
def Course.calculate_current_gradeS (self : Course) : ℚ × Course :=
  let z := self.categories.foldl currentGradeStepS ((0, 0), self)
  (if z.1.2 > 0 then z.1.1 / z.1.2 else 0, z.2)

/-- State-passing form of `get_gpa_points`: `sorted(...)` builds a fresh list
of pairs from the boundary dict and nothing is assigned to `self`. -/
def Course.get_gpa_pointsS (self : Course) (percentage : ℚ) : ℚ × Course :=
  if self.grade_boundaries = [] then (0, self)
  else
    (gpaScan
      (List.insertionSort descPairLe
        (self.grade_boundaries.map (fun p => (pyFloat p.1, pyFloat p.2))))
      (pyFloat percentage), self)

/-- One category's slice of the three parallel dicts handed to
`find_minimum_balanced_grades` (main.py, lines 938-946): `grades` is
`current_grades[name]`, `weight` is `weights[name]` (the category weight
already divided by 100), `total_assignments` is `total_assignments[name]`,
and `drops` is `self.current_course.categories[name].drops`. -/
structure SolverCat where
  name : String
  grades : List ℚ
  weight : ℚ
  total_assignments : ℕ
  drops : ℕ
deriving DecidableEq

/-- Drop processing in `find_minimum_balanced_grades` (main.py, lines
1022-1031): sort ascending and drop the lowest `drops` only when there are
strictly more recorded grades than drops. -/
def processGrades (grades : List ℚ) (drops : ℕ) : List ℚ :=
  if grades ≠ [] then
    let sorted_grades := sortAsc grades
    if drops > 0 ∧ sorted_grades.length > drops then sorted_grades.drop drops
    else sorted_grades
  else []

/-- One loop iteration of the current-contribution accumulation (main.py,
lines 1037-1043): the pair carries `(current_contribution, total_weight_used)`. -/
def contributionStep (acc : ℚ × ℚ) (c : SolverCat) : ℚ × ℚ :=
  let processed := processGrades c.grades c.drops
  if processed ≠ [] then
    let avg := listMean processed
    let effective_total : ℚ := (c.total_assignments : ℚ) - (c.drops : ℚ)
    let completed_weight := c.weight * ((processed.length : ℚ) / effective_total)
    (acc.1 + avg * completed_weight, acc.2 + completed_weight)
  else acc

/-- `current_contribution` right after the accumulation loop (main.py, line 1042). -/
def rawContribution (cats : List SolverCat) : ℚ :=
  (cats.foldl contributionStep (0, 0)).1

/-- `total_weight_used` after the accumulation loop (main.py, line 1043). -/
def totalWeightUsed (cats : List SolverCat) : ℚ :=
  (cats.foldl contributionStep (0, 0)).2

/-- `current_contribution` after the renormalisation statement (main.py,
lines 1045-1046): when `total_weight_used > 0` the code divides and multiplies
back by it. -/
def currentContribution (cats : List SolverCat) : ℚ :=
  let c := rawContribution cats
  let w := totalWeightUsed cats
  if w > 0 then (c / w) * w else c

/-- `"Test" in weights` / `weights["Test"]` lookups inside the solver: the
three dicts share their key set, so one first-match lookup models them. -/
def findSolverCat (cats : List SolverCat) (k : String) : Option SolverCat :=
  dictGet (cats.map (fun c => (c.name, c))) k

/-- The unknown slots one category adds to `all_remaining_grades` (main.py,
lines 1051-1082).  `policyText` is `self.final_policy_combo.currentText()`,
read inside the `"Final"` branch. -/
def slotsFor (cats : List SolverCat) (apply_final_policy : Bool)
    (policyText : String) (c : SolverCat) : List (String × ℚ) :=
  let effective_total : ℤ := (c.total_assignments : ℤ) - (c.drops : ℤ)
  let current_count : ℤ := ((processGrades c.grades c.drops).length : ℤ)
  let remaining : ℤ := max 0 (effective_total - current_count)
  if remaining > 0 then
    if c.name = "Test" ∧ apply_final_policy then
      List.replicate (remaining - 1).toNat ("Test", c.weight / (effective_total : ℚ))
    else if c.name = "Final" ∧ apply_final_policy then
      let final_weight := c.weight / (effective_total : ℚ)
      if policyText = "Replace Lowest Test" then
        match findSolverCat cats "Test" with
        | some t => [("Final", final_weight + t.weight / (t.total_assignments : ℚ))]
        | none => [("Final", final_weight)]
      else if policyText = "Average with Lowest Test" then
        match findSolverCat cats "Test" with
        | some t => [("Final", final_weight), ("Test", t.weight / (t.total_assignments : ℚ) / 2)]
        | none => [("Final", final_weight)]
      else [("Final", final_weight)]
    else
      List.replicate remaining.toNat (c.name, c.weight / (effective_total : ℚ))
  else []

/-- `all_remaining_grades` (main.py, lines 1049-1082): slots in dict
iteration order. -/
def allRemainingGrades (cats : List SolverCat) (apply_final_policy : Bool)
    (policyText : String) : List (String × ℚ) :=
  cats.flatMap (slotsFor cats apply_final_policy policyText)

/-- Where `find_minimum_balanced_grades` ends up before any numeric
optimisation runs: the empty dict (nothing remaining), the algebraic
single-Final answer, a raised `ValueError`, or the SLSQP general case. -/
inductive SolverOutcome where
  | nothingLeft : SolverOutcome
  | finalOnly (needed : ℚ) : SolverOutcome
  | valueError (msg : String) : SolverOutcome
  | generalCase (slots : List (String × ℚ)) : SolverOutcome
deriving DecidableEq

/-- Control flow of `find_minimum_balanced_grades` (main.py, lines 1019-1094)
up to the hand-off to SLSQP: returns `{}` when no slots remain, solves the
single-Final case algebraically and raises `ValueError` when the needed grade
leaves [0,100]; every other input reaches the optimiser (`generalCase`). -/
def find_minimum_balanced_grades (cats : List SolverCat) (target_grade : ℚ)
    (apply_final_policy : Bool) (policyText : String) : SolverOutcome :=
  let all_remaining := allRemainingGrades cats apply_final_policy policyText
  match all_remaining with
  | [] => .nothingLeft
  | [(cat, final_weight)] =>
    if cat = "Final" then
      let needed_grade := (target_grade - currentContribution cats) / final_weight
      if 0 ≤ needed_grade ∧ needed_grade ≤ 100 then .finalOnly needed_grade
      else .valueError "Cannot achieve the target grade with the remaining Final"
    else .generalCase all_remaining
  | _ => .generalCase all_remaining

/-- Claim C1's spec-side quantity: per category, apply the drop rule of
`calculate_category_average` (slice off the lowest `drops` unconditionally,
average 0 when nothing remains), and accumulate
`average(effectiveGrades) * weight * (count / effectiveTotal)` with the
post-drop count, as step 1 of section 4.3 describes for already-recorded work. -/
def specCompletedContribution (cats : List SolverCat) : ℚ :=
  (cats.map (fun c =>
    if c.grades ≠ [] then
      let effective := (sortAsc c.grades).drop c.drops
      let avg := if effective = [] then 0 else listMean effective
      avg * (c.weight * ((effective.length : ℚ) / ((c.total_assignments : ℚ) - (c.drops : ℚ))))
    else 0)).sum

/-- The completed weight `weights[category] * (len(processed) / effective_total)`
of one category (main.py, line 1041), written as a closed term. -/
def completedWeightTerm (c : SolverCat) : ℚ :=
  c.weight * (((processGrades c.grades c.drops).length : ℚ) /
    ((c.total_assignments : ℚ) - (c.drops : ℚ)))

/-- What one category adds to `current_contribution` in the solver loop. -/
def contribTerm (c : SolverCat) : ℚ :=
  if processGrades c.grades c.drops ≠ [] then
    listMean (processGrades c.grades c.drops) * completedWeightTerm c
  else 0

/-- What one category adds to `total_weight_used` in the solver loop. -/
def weightTerm (c : SolverCat) : ℚ :=
  if processGrades c.grades c.drops ≠ [] then completedWeightTerm c else 0

/-- Claim C5's spec-side numerator: the sum of `average * (weight/100)` over
the categories that have at least one recorded grade. -/
def completedNumerator (course : Course) : ℚ :=
  (((course.categories.filter (fun p => p.2.grades ≠ [])).map
    (fun p => course.calculate_category_average p.1 * (p.2.weight / 100)))).sum

/-- Claim C5's spec-side denominator: the sum of `weight/100` over the
categories that have at least one recorded grade. -/
def completedDenominator (course : Course) : ℚ :=
  (((course.categories.filter (fun p => p.2.grades ≠ [])).map
    (fun p => p.2.weight / 100))).sum

/-- The guard of the final-exam substitution in `calculate_category_average`
(course.py, lines 54-57): the queried name is `"Test"`, a `"Final"` category
with at least one recorded grade exists, and the policy is not
`"No Replacement"`. -/
def finalSubApplicable (course : Course) (category_name : String) : Bool :=
  category_name == "Test" && course.final_policy != "No Replacement" &&
    (match dictGet course.categories "Final" with
     | some finalCat => !finalCat.grades.isEmpty
     | none => false)

/-- Claim C6's well-formedness of a boundary set: minimum percentages are
strictly descending as the GPA point descends (equivalently, strictly
ascending with the GPA point). -/
def wellFormedBoundaries (bs : List (ℚ × ℚ)) : Prop :=
  ∀ a ∈ bs, ∀ b ∈ bs, a.1 < b.1 → a.2 < b.2

instance (bs : List (ℚ × ℚ)) : Decidable (wellFormedBoundaries bs) :=
  inferInstanceAs (Decidable (∀ a ∈ bs, ∀ b ∈ bs, a.1 < b.1 → a.2 < b.2))

/-- Counterexample input for claim C1: one recorded grade with `drops = 2`.
`calculate_category_average` would drop into an empty list (average 0), while
the solver keeps the single grade because `len(sorted_grades) <= drops`. -/
def c1Cats : List SolverCat :=
  [{ name := "HW", grades := [50], weight := 2/5, total_assignments := 5, drops := 2 }]

/-- Witness input for claim C1's amended statement: every category with
recorded grades has strictly more of them than drops. -/
def c1WitnessCats : List SolverCat :=
  [{ name := "HW", grades := [60, 80, 90, 100], weight := 2/5, total_assignments := 4, drops := 1 },
   { name := "Quiz", grades := [], weight := 1/5, total_assignments := 3, drops := 0 }]

/-- Failing input for claim C2: Test (weight 20%, 2 slots, one 80 recorded)
and Final (weight 30%, 1 slot, none recorded) both have remaining slots. -/
def c2Cats : List SolverCat :=
  [{ name := "Test", grades := [80], weight := 1/5, total_assignments := 2, drops := 0 },
   { name := "Final", grades := [], weight := 3/10, total_assignments := 1, drops := 0 }]

/-- Second failing input for claim C2: as `c2Cats` but the Test category has
3 assignments with 1 drop, so its effectiveTotal (2) differs from its
totalAssignments (3). -/
def c2DropCats : List SolverCat :=
  [{ name := "Test", grades := [80], weight := 1/5, total_assignments := 3, drops := 1 },
   { name := "Final", grades := [], weight := 3/10, total_assignments := 1, drops := 0 }]

/-- Witness course for claim C3: the Homework example of spec section 8. -/
def c3Course : Course :=
  { name := "c3", credit_hours := 3, semester := "Fall",
    categories := [("Homework",
      { name := "Homework", weight := 40, total_assignments := 4, drops := 1,
        grades := [60, 80, 90, 100] })],
    grade_boundaries := [(4, 90)], final_policy := "No Replacement" }

/-- Witness course for claim C4: Test grades [70,80,90] with one drop and a
recorded Final of 95, under the replace-lowest policy string. -/
def c4Course : Course :=
  { name := "c4", credit_hours := 3, semester := "Fall",
    categories :=
      [("Test",
        { name := "Test", weight := 50, total_assignments := 3, drops := 1,
          grades := [70, 80, 90] }),
       ("Final",
        { name := "Final", weight := 20, total_assignments := 1, drops := 0,
          grades := [95] })],
    grade_boundaries := [], final_policy := "Replace Lowest Test" }

/-- Witness course for claim C5: positive weights but no recorded grades. -/
def c5Course : Course :=
  { name := "c5", credit_hours := 3, semester := "Fall",
    categories :=
      [("Homework",
        { name := "Homework", weight := 40, total_assignments := 4, drops := 0,
          grades := [] }),
       ("Exam",
        { name := "Exam", weight := 60, total_assignments := 2, drops := 0,
          grades := [] })],
    grade_boundaries := [(4, 90)], final_policy := "No Replacement" }

/-- Counterexample course for claim C6: a single well-formed boundary with a
negative GPA point. -/
def c6Course : Course :=
  { name := "c6", credit_hours := 3, semester := "Fall",
    categories := [], grade_boundaries := [(-1, 50)],
    final_policy := "No Replacement" }

/-- Witness course for claim C6's amended statement: the usual descending
boundary set with non-negative GPA points. -/
def c6WitnessCourse : Course :=
  { name := "c6w", credit_hours := 3, semester := "Fall",
    categories := [], grade_boundaries := [(4, 90), (3, 80), (2, 70)],
    final_policy := "No Replacement" }

/-- Witness input for claim C7: a single Final category with one remaining
slot of per-slot weight 1 (weight 100% over one assignment). -/
def c7Cats : List SolverCat :=
  [{ name := "Final", grades := [], weight := 1, total_assignments := 1, drops := 0 }]

/-- Witness input for claim C8: every category already has all its effective
assignments recorded. -/
def c8Cats : List SolverCat :=
  [{ name := "HW", grades := [80, 90], weight := 1/2, total_assignments := 2, drops := 0 },
   { name := "Exam", grades := [70, 75, 85, 95], weight := 1/2, total_assignments := 4, drops := 1 }]

/-- Witness course for claim C10, queried with a category name that is not
present. -/
def c10Course : Course :=
  { name := "c10", credit_hours := 3, semester := "Fall",
    categories := [("Quiz",
      { name := "Quiz", weight := 100, total_assignments := 2, drops := 0,
        grades := [85] })],
    grade_boundaries := [(4, 90)], final_policy := "No Replacement" }

theorem pyFloat_map (l : List ℚ) : l.map pyFloat = l := by
  induction l with
  | nil => rfl
  | cons a t ih => simp [ih, pyFloat]

theorem gradeCategory_roundtrip (cat : GradeCategory) :
    GradeCategory.from_dict cat.to_dict = cat := by
  cases cat
  simp [GradeCategory.from_dict, GradeCategory.to_dict, pyFloat, pyInt, pyFloat_map]

/-- C9 (confirmed): for every Course, serialising with `to_dict` and
reconstructing with `from_dict` yields a Course equal to the original in
name, credit hours, semester, categories (keys, order and every category
field including the ordered grade list), grade boundaries and final policy. -/
theorem c9_course_roundtrip (course : Course) :
    Course.from_dict course.to_dict = course := by
  cases course
  simp [Course.from_dict, Course.to_dict, pyFloat, gradeCategory_roundtrip,
    List.map_map, Function.comp_def]

theorem foldl_pair_add {α : Type} (step : ℚ × ℚ → α → ℚ × ℚ) (f g : α → ℚ)
    (hstep : ∀ acc x, step acc x = (acc.1 + f x, acc.2 + g x)) :
    ∀ (l : List α) (a b : ℚ),
      l.foldl step (a, b) = (a + (l.map f).sum, b + (l.map g).sum)
  | [], a, b => by simp
  | x :: t, a, b => by
    simp only [List.foldl_cons, List.map_cons, List.sum_cons, hstep]
    rw [foldl_pair_add step f g hstep t]
    simp [add_assoc]

theorem contributionStep_eq (acc : ℚ × ℚ) (c : SolverCat) :
    contributionStep acc c = (acc.1 + contribTerm c, acc.2 + weightTerm c) := by
  unfold contributionStep contribTerm weightTerm completedWeightTerm
  by_cases h : processGrades c.grades c.drops = [] <;> simp [h]

theorem rawContribution_eq_sum (cats : List SolverCat) :
    rawContribution cats = (cats.map contribTerm).sum := by
  unfold rawContribution
  rw [foldl_pair_add contributionStep contribTerm weightTerm contributionStep_eq]
  simp

theorem totalWeightUsed_eq_sum (cats : List SolverCat) :
    totalWeightUsed cats = (cats.map weightTerm).sum := by
  unfold totalWeightUsed
  rw [foldl_pair_add contributionStep contribTerm weightTerm contributionStep_eq]
  simp

theorem currentContribution_eq_raw (cats : List SolverCat) :
    currentContribution cats = rawContribution cats := by
  unfold currentContribution
  by_cases h : totalWeightUsed cats > 0
  · simp only [if_pos h]
    exact div_mul_cancel₀ _ (ne_of_gt h)
  · simp [h]

/-- C1 (corrected), counterexample: with one category holding a single
recorded grade 50 and drops = 2, the drop rule of
`calculate_category_average` empties the list (average 0, contribution 0),
but the solver keeps the grade because `len(sorted_grades) <= drops`, so its
`current_contribution` is 50 * (2/5) * (1/3) = 20/3, not 0. -/
theorem c1_counterexample :
    currentContribution c1Cats ≠ specCompletedContribution c1Cats := by
  have hleft : currentContribution c1Cats = 20/3 := by
    simp [c1Cats, currentContribution, rawContribution, totalWeightUsed,
      contributionStep, processGrades, sortAsc, List.insertionSort,
      List.orderedInsert, listMean]
    norm_num
  have hright : specCompletedContribution c1Cats = 0 := by
    simp [c1Cats, specCompletedContribution, sortAsc, List.insertionSort,
      List.orderedInsert]
  rw [hleft, hright]
  norm_num

/-- C1 (corrected), amended claim: when every category with recorded grades
has strictly more of them than its drop count, the solver's step 1 (drop the
lowest `drops`, accumulate `average * weight * (count / effectiveTotal)` with
the post-drop count, then renormalise by `total_weight_used`) produces exactly
the spec-side weighted completed contribution built with the drop rule of
`calculate_category_average`. -/
theorem c1_amended_step1_matches_spec (cats : List SolverCat)
    (h : ∀ c ∈ cats, c.grades ≠ [] → c.drops < c.grades.length) :
    currentContribution cats = specCompletedContribution cats := by
  rw [currentContribution_eq_raw, rawContribution_eq_sum]
  unfold specCompletedContribution
  refine congrArg List.sum (List.map_congr_left ?_)
  intro c hc
  by_cases hg : c.grades = []
  · simp [contribTerm, processGrades, hg]
  · have hlen : (sortAsc c.grades).length = c.grades.length := by
      simp [sortAsc]
    have hd : c.drops < c.grades.length := h c hc hg
    have hsne : sortAsc c.grades ≠ [] := by
      intro hnil
      have h0 := congrArg List.length hnil
      rw [hlen] at h0
      simp at h0
      exact hg h0
    by_cases hd0 : c.drops = 0
    · have hproc : processGrades c.grades c.drops = sortAsc c.grades := by
        unfold processGrades
        simp [hg, hd0]
      unfold contribTerm completedWeightTerm
      rw [hproc]
      simp [hd0, List.drop_zero, hsne, hg]
    · have hpos : 0 < c.drops := Nat.pos_of_ne_zero hd0
      have hproc : processGrades c.grades c.drops = (sortAsc c.grades).drop c.drops := by
        unfold processGrades
        simp [hg, hpos, hlen, hd]
      have hdne : (sortAsc c.grades).drop c.drops ≠ [] := by
        intro hnil
        have h0 := congrArg List.length hnil
        rw [List.length_drop, hlen] at h0
        simp at h0
        omega
      simp [contribTerm, completedWeightTerm, hproc, hdne, hg]

/-- Witness for the amended C1: a fully regular two-category input. -/
theorem c1_amended_witness :
    currentContribution c1WitnessCats = specCompletedContribution c1WitnessCats :=
  c1_amended_step1_matches_spec c1WitnessCats (by decide)

theorem slotsFor_eq_nil_of_complete (cats : List SolverCat) (ap : Bool)
    (pt : String) (c : SolverCat)
    (h : (c.total_assignments : ℤ) - (c.drops : ℤ) ≤
      ((processGrades c.grades c.drops).length : ℤ)) :
    slotsFor cats ap pt c = [] := by
  unfold slotsFor
  rw [if_neg]
  omega

/-- C8 (confirmed): when every category's effective total (totalAssignments
minus drops) is at most its recorded count after drop processing, no unknown
slots are generated and the solver returns the empty dict, the "nothing left
to solve" signal, rather than an error or per-category scores. -/
theorem c8_nothing_left_signal (cats : List SolverCat) (target : ℚ) (ap : Bool)
    (pt : String)
    (h : ∀ c ∈ cats, (c.total_assignments : ℤ) - (c.drops : ℤ) ≤
      ((processGrades c.grades c.drops).length : ℤ)) :
    find_minimum_balanced_grades cats target ap pt = SolverOutcome.nothingLeft := by
  have hslots : allRemainingGrades cats ap pt = [] := by
    unfold allRemainingGrades
    rw [List.flatMap_eq_nil_iff]
    intro c hc
    exact slotsFor_eq_nil_of_complete cats ap pt c (h c hc)
  unfold find_minimum_balanced_grades
  rw [hslots]

/-- Witness for C8: both categories are fully recorded. -/
theorem c8_nothing_left_witness :
    find_minimum_balanced_grades c8Cats 90 false "No Replacement"
      = SolverOutcome.nothingLeft :=
  c8_nothing_left_signal c8Cats 90 false "No Replacement" (by decide)

/-- C7 (confirmed): when slot generation leaves exactly one unknown slot and
it belongs to the category named "Final" (with a positive per-slot weight, as
produced by a positive category weight), the solver returns the single value
`(target - current_contribution) / final_weight` and raises the unreachable
`ValueError` exactly when that value lies outside [0, 100]. -/
theorem c7_single_final_shortcut (cats : List SolverCat) (target w : ℚ)
    (ap : Bool) (pt : String)
    (hslots : allRemainingGrades cats ap pt = [("Final", w)]) (_hw : 0 < w) :
    (0 ≤ (target - currentContribution cats) / w ∧
        (target - currentContribution cats) / w ≤ 100 →
      find_minimum_balanced_grades cats target ap pt =
        SolverOutcome.finalOnly ((target - currentContribution cats) / w)) ∧
    (¬(0 ≤ (target - currentContribution cats) / w ∧
        (target - currentContribution cats) / w ≤ 100) →
      find_minimum_balanced_grades cats target ap pt =
        SolverOutcome.valueError
          "Cannot achieve the target grade with the remaining Final") := by
  unfold find_minimum_balanced_grades
  rw [hslots]
  constructor <;> intro hcond
  · simp [hcond]
  · simp [hcond]

/-- Witness for C7: one Final category, one remaining slot of weight 1,
target 95, no recorded work, so the needed grade is (95 - 0) / 1. -/
theorem c7_single_final_witness :
    find_minimum_balanced_grades c7Cats 95 false "No Replacement"
      = SolverOutcome.finalOnly ((95 - currentContribution c7Cats) / 1) :=
  (c7_single_final_shortcut c7Cats 95 1 false "No Replacement"
    (by
      simp [c7Cats, allRemainingGrades, slotsFor, processGrades, findSolverCat,
        dictGet])
    (by norm_num)).1
    (by
      have hc : currentContribution c7Cats = 0 := by
        simp [c7Cats, currentContribution, rawContribution, totalWeightUsed,
          contributionStep, processGrades]
      rw [hc]
      norm_num)

/-- C2 (code_bug): the combo box only offers policy texts carrying the
"(Experimental, use at own risk)" suffix (main.py, lines 509-514), while the
solver's Final branch compares `currentText()` against the exact strings
"Replace Lowest Test" / "Average with Lowest Test" (main.py, lines 1064,
1070).  With the suffixed text active and both Test and Final having
remaining slots, the Final slot therefore keeps only its own per-slot weight
3/10 instead of the claimed 3/10 + (1/5)/2 = 2/5.  Moreover, even when the
exact string "Replace Lowest Test" is supplied, the Test share of the Final
slot weight is `weights["Test"] / total_assignments["Test"]` (main.py, line
1066), dividing by totalAssignments 3 rather than by effectiveTotal 2, giving
3/10 + 1/15 = 11/30 instead of 2/5. -/
theorem c2_final_slot_weight_bug :
    (allRemainingGrades c2Cats true "Replace Lowest Test (Experimental, use at own risk)"
        = [("Final", 3/10)] ∧
      (3/10 : ℚ) ≠ 3/10 + (1/5) / 2) ∧
    (allRemainingGrades c2DropCats true "Replace Lowest Test"
        = [("Final", 11/30)] ∧
      (11/30 : ℚ) ≠ 3/10 + (1/5) / 2) := by
  constructor
  · constructor
    · simp [c2Cats, allRemainingGrades, slotsFor, processGrades, sortAsc,
        List.insertionSort, List.orderedInsert, findSolverCat, dictGet]
    · norm_num
  · constructor
    · simp [c2DropCats, allRemainingGrades, slotsFor, processGrades, sortAsc,
        List.insertionSort, List.orderedInsert, findSolverCat, dictGet]
      norm_num
    · norm_num

theorem currentGradeStep_eq (course : Course) (acc : ℚ × ℚ)
    (p : String × GradeCategory) :
    currentGradeStep course acc p =
      (acc.1 + (if p.2.grades ≠ [] then
          course.calculate_category_average p.1 * (p.2.weight / 100) else 0),
        acc.2 + (if p.2.grades ≠ [] then p.2.weight / 100 else 0)) := by
  unfold currentGradeStep
  by_cases h : p.2.grades = [] <;> simp [h]

theorem sum_map_ite_filter {α : Type} (p : α → Prop) [DecidablePred p]
    (h : α → ℚ) (l : List α) :
    (l.map (fun x => if p x then h x else 0)).sum =
      ((l.filter (fun x => p x)).map h).sum := by
  induction l with
  | nil => rfl
  | cons a t ih => by_cases hp : p a <;> simp [hp, ih]

/-- C5 (confirmed): `calculate_current_grade` equals the sum of
`average * weight/100` over categories with recorded grades divided by the
sum of their `weight/100` when that denominator is positive, and 0 otherwise;
categories without recorded grades enter neither sum, and with no recorded
grades at all the current grade is 0 regardless of weights. -/
theorem c5_current_grade_formula (course : Course) :
    (course.calculate_current_grade =
      if 0 < completedDenominator course then
        completedNumerator course / completedDenominator course
      else 0) ∧
    ((∀ p ∈ course.categories, p.2.grades = []) →
      course.calculate_current_grade = 0) := by
  have hfold := foldl_pair_add (currentGradeStep course)
    (fun p => if p.2.grades ≠ [] then
      course.calculate_category_average p.1 * (p.2.weight / 100) else 0)
    (fun p => if p.2.grades ≠ [] then p.2.weight / 100 else 0)
    (currentGradeStep_eq course) course.categories 0 0
  constructor
  · unfold Course.calculate_current_grade
    rw [hfold]
    simp only [zero_add]
    rw [sum_map_ite_filter (fun p : String × GradeCategory => p.2.grades ≠ [])
        (fun p => course.calculate_category_average p.1 * (p.2.weight / 100)),
      sum_map_ite_filter (fun p : String × GradeCategory => p.2.grades ≠ [])
        (fun p => p.2.weight / 100)]
    rfl
  · intro hall
    unfold Course.calculate_current_grade
    rw [hfold]
    have hz1 : (course.categories.map (fun p => if p.2.grades ≠ [] then
        course.calculate_category_average p.1 * (p.2.weight / 100) else 0)).sum = 0 := by
      apply List.sum_eq_zero
      intro x hx
      obtain ⟨q, hq, rfl⟩ := List.mem_map.mp hx
      simp [hall q hq]
    have hz2 : (course.categories.map (fun p => if p.2.grades ≠ [] then
        p.2.weight / 100 else 0)).sum = 0 := by
      apply List.sum_eq_zero
      intro x hx
      obtain ⟨q, hq, rfl⟩ := List.mem_map.mp hx
      simp [hall q hq]
    rw [hz1, hz2]
    simp

/-- Witness for C5: two weighted categories, both without recorded grades. -/
theorem c5_no_grades_witness : c5Course.calculate_current_grade = 0 :=
  (c5_current_grade_formula c5Course).2 (by decide)

/-- C3 (confirmed): for a category with at least one recorded grade and no
applicable final-exam substitution, `calculate_category_average` returns the
arithmetic mean of the ascending-sorted grades with the lowest `drops`
removed (0 when nothing remains), and with `drops = 0` it equals the
arithmetic mean of all recorded grades. -/
theorem c3_category_average_drop_rule (course : Course) (category_name : String)
    (cat : GradeCategory)
    (hcat : dictGet course.categories category_name = some cat)
    (hne : cat.grades ≠ [])
    (hnosub : finalSubApplicable course category_name = false) :
    (course.calculate_category_average category_name =
      (if (sortAsc cat.grades).drop cat.drops = [] then 0
       else listMean ((sortAsc cat.grades).drop cat.drops))) ∧
    (cat.drops = 0 →
      course.calculate_category_average category_name = listMean cat.grades) := by
  have hsne : sortAsc cat.grades ≠ [] := by
    intro hnil
    have h0 := congrArg List.length hnil
    simp [sortAsc] at h0
    exact hne h0
  have hmain : course.calculate_category_average category_name =
      (if (sortAsc cat.grades).drop cat.drops = [] then 0
       else listMean ((sortAsc cat.grades).drop cat.drops)) := by
    simp only [Course.calculate_category_average, hcat, pyFloat_map]
    rw [if_neg hne]
    cases hfin : dictGet course.categories "Final" with
    | none =>
      by_cases hd : cat.drops > 0
      · simp [hd]
      · have hd0 : cat.drops = 0 := by omega
        simp [hd, hd0]
    | some fcat =>
      by_cases hTest : category_name = "Test" ∧ course.final_policy ≠ "No Replacement"
      · have hfg : fcat.grades = [] := by
          have hn := hnosub
          unfold finalSubApplicable at hn
          rw [hfin] at hn
          simp [hTest.1, hTest.2] at hn
          exact hn
        by_cases hd : cat.drops > 0
        · simp [hTest, hfg, hd]
        · have hd0 : cat.drops = 0 := by omega
          simp [hTest, hfg, hd, hd0]
      · by_cases hd : cat.drops > 0
        · simp [hTest, hd]
        · have hd0 : cat.drops = 0 := by omega
          simp [hTest, hd, hd0]
  refine ⟨hmain, ?_⟩
  intro hd0
  rw [hmain, hd0, List.drop_zero, if_neg hsne]
  have hsum : (sortAsc cat.grades).sum = cat.grades.sum :=
    (List.perm_insertionSort (fun a b : ℚ => a ≤ b) cat.grades).sum_eq
  have hlen : (sortAsc cat.grades).length = cat.grades.length := by
    simp [sortAsc]
  unfold listMean
  rw [hsum, hlen]

/-- Witness for C3: the Homework example of spec section 8, where dropping
the lowest of [60, 80, 90, 100] gives average 90. -/
theorem c3_homework_witness : c3Course.calculate_category_average "Homework" = 90 := by
  have h := (c3_category_average_drop_rule c3Course "Homework"
    { name := "Homework", weight := 40, total_assignments := 4, drops := 1,
      grades := [60, 80, 90, 100] } (by decide) (by decide) (by decide)).1
  rw [h]
  norm_num [sortAsc, List.insertionSort, List.orderedInsert, listMean]
  all_goals simp

/-- C4 (confirmed): querying the "Test" category when a "Final" category has
recorded grades and the policy string is one of the two substitution
policies, only the first recorded Final grade is used and, before averaging,
"Replace Lowest Test" replaces the lowest post-drop grade exactly when the
final grade is strictly greater, while "Average with Lowest Test" replaces it
with the mean of the two. -/
theorem c4_final_policy_substitution (course : Course) (tcat fcat : GradeCategory)
    (fg : ℚ) (fgs : List ℚ) (x : ℚ) (xs : List ℚ)
    (htest : dictGet course.categories "Test" = some tcat)
    (hfin : dictGet course.categories "Final" = some fcat)
    (hfg : fcat.grades = fg :: fgs)
    (heff : (sortAsc tcat.grades).drop tcat.drops = x :: xs) :
    (course.final_policy = "Replace Lowest Test" →
      course.calculate_category_average "Test" =
        listMean ((if fg > x then fg else x) :: xs)) ∧
    (course.final_policy = "Average with Lowest Test" →
      course.calculate_category_average "Test" =
        listMean (((x + fg) / 2) :: xs)) := by
  have hgne : tcat.grades ≠ [] := by
    intro h0
    rw [h0] at heff
    simp [sortAsc] at heff
  have hg1 : (if tcat.drops > 0 then (sortAsc tcat.grades).drop tcat.drops
      else sortAsc tcat.grades) = x :: xs := by
    by_cases hd : tcat.drops > 0
    · rwa [if_pos hd]
    · have hd0 : tcat.drops = 0 := by omega
      rw [if_neg hd]
      rw [hd0, List.drop_zero] at heff
      exact heff
  constructor <;> intro hpol
  · simp only [Course.calculate_category_average, htest, hfin, pyFloat_map, hpol,
      hfg, hg1]
    by_cases hcmp : fg > x <;> simp [hcmp, hgne]
  · simp only [Course.calculate_category_average, htest, hfin, pyFloat_map, hpol,
      hfg, hg1]
    simp [hgne]

/-- Witness for C4: Test grades [70,80,90] with one drop leave [80,90]; the
recorded Final 95 exceeds 80, so the replace policy yields (95+90)/2. -/
theorem c4_replace_lowest_witness :
    c4Course.calculate_category_average "Test" = 185/2 := by
  have h := (c4_final_policy_substitution c4Course
    { name := "Test", weight := 50, total_assignments := 3, drops := 1,
      grades := [70, 80, 90] }
    { name := "Final", weight := 20, total_assignments := 1, drops := 0,
      grades := [95] }
    95 [] 80 [90] (by decide) (by decide) rfl (by decide)).1 rfl
  rw [h]
  norm_num [listMean]

theorem gpaScan_le_bound : ∀ (l : List (ℚ × ℚ)) (g : ℚ), 0 ≤ g →
    (∀ b ∈ l, b.1 ≤ g) → ∀ p, gpaScan l p ≤ g
  | [], g, hg, _, p => by simpa [gpaScan] using hg
  | (gpa, m) :: t, g, hg, hall, p => by
    unfold gpaScan
    by_cases hc : p ≥ m
    · simpa [hc] using hall (gpa, m) (by simp)
    · simp only [if_neg hc]
      exact gpaScan_le_bound t g hg (fun b hb => hall b (by simp [hb])) p

theorem gpaScan_mono : ∀ (l : List (ℚ × ℚ)), (∀ b ∈ l, 0 ≤ b.1) →
    l.Pairwise (fun a b => b.1 ≤ a.1) → ∀ p₁ p₂, p₁ ≤ p₂ →
    gpaScan l p₁ ≤ gpaScan l p₂
  | [], _, _, p₁, p₂, _ => le_refl 0
  | (gpa, m) :: t, hnn, hsorted, p₁, p₂, hp => by
    unfold gpaScan
    by_cases h1 : p₁ ≥ m
    · have h2 : p₂ ≥ m := le_trans h1 hp
      simp [h1, h2]
    · simp only [if_neg h1]
      by_cases h2 : p₂ ≥ m
      · simp only [if_pos h2]
        refine gpaScan_le_bound t gpa (hnn (gpa, m) (by simp)) ?_ p₁
        intro b hb
        exact (List.pairwise_cons.mp hsorted).1 b hb
      · simp only [if_neg h2]
        exact gpaScan_mono t (fun b hb => hnn b (by simp [hb]))
          (List.pairwise_cons.mp hsorted).2 p₁ p₂ hp

/-- C6 (corrected), counterexample: the boundary set [(-1, 50)] is trivially
well-formed (one entry) yet `get_gpa_points` is not monotone on it: a
percentage of 0 matches nothing and returns the default 0, while 50 matches
the -1 entry, so the larger percentage yields the smaller GPA value. -/
theorem c6_counterexample :
    wellFormedBoundaries c6Course.grade_boundaries ∧ (0 : ℚ) ≤ 50 ∧
      ¬(c6Course.get_gpa_points 0 ≤ c6Course.get_gpa_points 50) := by
  refine ⟨?_, by norm_num, ?_⟩
  · intro a ha b hb hab
    simp [c6Course, wellFormedBoundaries] at ha hb
    rw [ha, hb] at hab
    exact absurd hab (lt_irrefl _)
  · decide

/-- C6 (corrected), amended claim: for a well-formed boundary set whose GPA
points are in addition all non-negative, `get_gpa_points` is monotone: a
higher percentage never yields a lower GPA value. -/
theorem c6_gpa_points_monotone (course : Course) (p₁ p₂ : ℚ)
    (_hwf : wellFormedBoundaries course.grade_boundaries)
    (hnn : ∀ b ∈ course.grade_boundaries, 0 ≤ b.1)
    (hp : p₁ ≤ p₂) :
    course.get_gpa_points p₁ ≤ course.get_gpa_points p₂ := by
  unfold Course.get_gpa_points
  by_cases hb : course.grade_boundaries = []
  · simp [hb]
  · rw [if_neg hb, if_neg hb]
    apply gpaScan_mono
    · intro b hbmem
      rw [List.mem_insertionSort] at hbmem
      obtain ⟨q, hq, rfl⟩ := List.mem_map.mp hbmem
      simpa [pyFloat] using hnn q hq
    · have hs := List.sorted_insertionSort descPairLe
        (course.grade_boundaries.map (fun p => (pyFloat p.1, pyFloat p.2)))
      refine List.Pairwise.imp ?_ hs
      intro a b hab
      rcases hab with h | ⟨h, _⟩
      · exact le_of_lt h
      · exact le_of_eq h
    · exact hp

/-- Witness for the amended C6: the standard descending boundary set. -/
theorem c6_monotone_witness :
    c6WitnessCourse.get_gpa_points 85 ≤ c6WitnessCourse.get_gpa_points 95 :=
  c6_gpa_points_monotone c6WitnessCourse 85 95 (by decide) (by decide)
    (by norm_num)

theorem calculate_category_averageS_spec (course : Course) (name : String) :
    course.calculate_category_averageS name =
      (course.calculate_category_average name, course) := by
  unfold Course.calculate_category_averageS Course.calculate_category_average
  cases hd : dictGet course.categories name with
  | none => rfl
  | some category =>
    by_cases hg : category.grades = []
    · simp [hg]
    · simp [hg]

theorem currentGradeStepS_spec (acc : (ℚ × ℚ) × Course) (p : String × GradeCategory) :
    currentGradeStepS acc p = (currentGradeStep acc.2 acc.1 p, acc.2) := by
  unfold currentGradeStepS currentGradeStep
  by_cases hg : p.2.grades = []
  · simp [hg]
  · simp [hg, calculate_category_averageS_spec]

theorem foldl_currentGradeStepS (self : Course) :
    ∀ (l : List (String × GradeCategory)) (ab : ℚ × ℚ),
      l.foldl currentGradeStepS (ab, self) = (l.foldl (currentGradeStep self) ab, self)
  | [], _ => rfl
  | p :: t, ab => by
    simp only [List.foldl_cons, currentGradeStepS_spec]
    exact foldl_currentGradeStepS self t _

theorem calculate_current_gradeS_spec (course : Course) :
    course.calculate_current_gradeS = (course.calculate_current_grade, course) := by
  unfold Course.calculate_current_gradeS Course.calculate_current_grade
  rw [foldl_currentGradeStepS]

theorem get_gpa_pointsS_spec (course : Course) (p : ℚ) :
    course.get_gpa_pointsS p = (course.get_gpa_points p, course) := by
  unfold Course.get_gpa_pointsS Course.get_gpa_points
  by_cases hb : course.grade_boundaries = [] <;> simp [hb]

/-- C10 (confirmed): the three query operations are pure: in their
state-passing forms each returns its value together with the course state it
received, unchanged (the categories mapping, every grades list and its order,
the boundaries and the policy); `sorted` works on a local copy.  In addition
`calculate_category_average` returns 0 for a category name not present. -/
theorem c10_queries_pure (course : Course) (name : String) (p : ℚ) :
    (course.calculate_category_averageS name).2 = course ∧
    (course.calculate_current_gradeS).2 = course ∧
    (course.get_gpa_pointsS p).2 = course ∧
    (course.calculate_category_averageS name).1 =
      course.calculate_category_average name ∧
    (course.calculate_current_gradeS).1 = course.calculate_current_grade ∧
    (course.get_gpa_pointsS p).1 = course.get_gpa_points p ∧
    (dictGet course.categories name = none →
      course.calculate_category_average name = 0) := by
  refine ⟨?_, ?_, ?_, ?_, ?_, ?_, ?_⟩
  · rw [calculate_category_averageS_spec]
  · rw [calculate_current_gradeS_spec]
  · rw [get_gpa_pointsS_spec]
  · rw [calculate_category_averageS_spec]
  · rw [calculate_current_gradeS_spec]
  · rw [get_gpa_pointsS_spec]
  · intro h
    unfold Course.calculate_category_average
    rw [h]

/-- Witness for C10: querying a name that is not a category of the course. -/
theorem c10_missing_category_witness :
    c10Course.calculate_category_average "Missing" = 0 ∧
      (c10Course.calculate_category_averageS "Missing").2 = c10Course := by
  have h := c10_queries_pure c10Course "Missing" 0
  exact ⟨h.2.2.2.2.2.2 (by decide), h.1⟩
